import Mathlib

set_option maxRecDepth 100000

/-!
Verification of the SQL-chatbot backend (`llm_chatbot_backend.py`) against its
specification.  The Python source is shallowly embedded: pure text-processing
helpers become executable Lean functions over `List Char`/`String`, and the
HTTP/LLM pipeline becomes a function over explicit oracles (one `Except` value
per external call) with instrumentation recording the prompts that were sent.
-/

/-- Python whitespace, as used by `str.strip()` and by the regex class `\s`
(for the ASCII texts this backend manipulates): space, tab, LF, CR, VT, FF. -/
def isPyWs (c : Char) : Bool :=
  c == ' ' || c == '\t' || c == '\n' || c == '\r' || c == '\x0B' || c == '\x0C'

/-- `str.strip()`: drop leading and trailing whitespace. -/
def pyStrip (t : List Char) : List Char :=
  ((t.dropWhile isPyWs).reverse.dropWhile isPyWs).reverse

/-- `str.strip(",")`: drop leading and trailing commas. -/
def stripCommas (t : List Char) : List Char :=
  ((t.dropWhile (· == ',')).reverse.dropWhile (· == ',')).reverse

/-- `str.lower()` character-wise (the source only lower-cases ASCII text). -/
def lowerL (t : List Char) : List Char := t.map Char.toLower

/-- `str.upper()` character-wise. -/
def upperL (t : List Char) : List Char := t.map Char.toUpper

/-- Case-insensitive prefix test (regex `re.IGNORECASE` literal matching). -/
def prefixCI : List Char → List Char → Bool
  | [], _ => true
  | _ :: _, [] => false
  | p :: ps, c :: cs => (p.toLower == c.toLower) && prefixCI ps cs

/-- Case-insensitive substring test; for already-lower-cased text this is
Python's `pat in s`. -/
def hasSub (pat : List Char) : List Char → Bool
  | [] => prefixCI pat []
  | c :: rest => prefixCI pat (c :: rest) || hasSub pat rest

/-- Index of the first case-insensitive occurrence of `pat`. -/
def findIdxCI (pat : List Char) : List Char → Option Nat
  | [] => if prefixCI pat [] then some 0 else none
  | c :: rest =>
    if prefixCI pat (c :: rest) then some 0 else (findIdxCI pat rest).map Nat.succ

/-- Length of the leading whitespace run (regex `\s*` before a non-blank literal). -/
def wsCount : List Char → Nat
  | [] => 0
  | c :: rest => if isPyWs c then wsCount rest + 1 else 0

/-- Index of the first `';'`. -/
def findSemi : List Char → Option Nat
  | [] => none
  | c :: rest => if c == ';' then some 0 else (findSemi rest).map Nat.succ

/-- Python `str.replace(pat, rep)` (all leftmost non-overlapping occurrences),
driven by a fuel argument so the kernel can evaluate it.  Each step consumes at
least one input character, so `fuel = s.length` suffices. -/
def replFuel (pat rep : List Char) : Nat → List Char → List Char
  | 0, s => s
  | _ + 1, [] => []
  | f + 1, c :: rest =>
    if pat.isPrefixOf (c :: rest) then
      rep ++ replFuel pat rep f ((c :: rest).drop pat.length)
    else
      c :: replFuel pat rep f rest

/-- Python `str.replace` for a non-empty pattern (all patterns in the source
are non-empty literals). -/
def pyReplace (s pat rep : List Char) : List Char :=
  if pat.isEmpty then s else replFuel pat rep s.length s

/-- Python `str.split()` (split on whitespace runs, dropping empty parts). -/
def pySplitWsAux (cur : List Char) : List Char → List (List Char)
  | [] => if cur.isEmpty then [] else [cur.reverse]
  | c :: rest =>
    if isPyWs c then
      if cur.isEmpty then pySplitWsAux [] rest else cur.reverse :: pySplitWsAux [] rest
    else
      pySplitWsAux (c :: cur) rest

def pySplitWs (s : List Char) : List (List Char) := pySplitWsAux [] s

/-- `re.split(sep, s)` for a plain literal separator (no metacharacters):
split at each leftmost non-overlapping occurrence.  Fuel as in `replFuel`. -/
def splitLitAux (pat : List Char) : Nat → List Char → List Char → List (List Char)
  | _, [], cur => [cur.reverse]
  | 0, s, cur => [cur.reverse ++ s]
  | f + 1, c :: rest, cur =>
    if pat.isPrefixOf (c :: rest) then
      cur.reverse :: splitLitAux pat f ((c :: rest).drop pat.length) []
    else
      splitLitAux pat f rest (c :: cur)

def pySplitLit (pat s : List Char) : List (List Char) :=
  if pat.isEmpty then [s] else splitLitAux pat s.length s []

/-!
### SQL extraction (`extract_sql_from_response`, `QueryValidator.extract_sql_query`)

Both functions try, in order, the patterns
  `r'```sql\s*(.*?)\s*```'`, `r'```\s*(SELECT.*?;)\s*```'`, `r'(SELECT.*?;)'`
with `re.DOTALL | re.IGNORECASE`, taking the first (leftmost) match of the
first pattern that matches at all.  Each matcher below scans positions left to
right and realises the deterministic result of the lazy/greedy quantifiers:
a greedy `\s*` followed by a non-blank literal must consume the whole
whitespace run, and a lazy `(.*?)` stops at the first position at which the
remainder of the pattern matches.
-/

/-- Pattern 1 attempted at the current position: literal ` ```sql `, then
`\s*(.*?)\s*`, then closing ` ``` `.  The group therefore captures the text
between the fences with surrounding whitespace stripped. -/
def p1At (s : List Char) : Option (List Char) :=
  if prefixCI "```sql".data s then
    match findIdxCI "```".data (s.drop 6) with
    | some j => some (pyStrip ((s.drop 6).take j))
    | none => none
  else none

def p1Scan : List Char → Option (List Char)
  | [] => none
  | c :: rest =>
    match p1At (c :: rest) with
    | some cap => some cap
    | none => p1Scan rest

/-- After the `';'` of pattern 2's group, the regex requires `\s*` and the
closing fence. -/
def closesFence (t : List Char) : Bool := prefixCI "```".data (t.drop (wsCount t))

/-- First `';'` in the group body after which `\s*```​` matches (the lazy
`.*?` extends past any `';'` that is not followed by a closing fence). -/
def p2Semi : List Char → Option Nat
  | [] => none
  | c :: rest =>
    if c == ';' && closesFence rest then some 0 else (p2Semi rest).map Nat.succ

/-- Pattern 2 attempted at the current position: ` ``` `, `\s*`, then the
group `(SELECT.*?;)`, then `\s*` and ` ``` `. -/
def p2At (s : List Char) : Option (List Char) :=
  if prefixCI "```".data s then
    let rest := s.drop 3
    let afterWs := rest.drop (wsCount rest)
    if prefixCI "SELECT".data afterWs then
      match p2Semi (afterWs.drop 6) with
      | some q => some (afterWs.take (6 + q + 1))
      | none => none
    else none
  else none

def p2Scan : List Char → Option (List Char)
  | [] => none
  | c :: rest =>
    match p2At (c :: rest) with
    | some cap => some cap
    | none => p2Scan rest

/-- Pattern 3 attempted at the current position: `(SELECT.*?;)` — `SELECT`
here, then lazily up to the first `';'`. -/
def p3At (s : List Char) : Option (List Char) :=
  if prefixCI "SELECT".data s then
    (findSemi (s.drop 6)).map (fun q => s.take (6 + q + 1))
  else none

def p3Scan : List Char → Option (List Char)
  | [] => none
  | c :: rest =>
    match p3At (c :: rest) with
    | some cap => some cap
    | none => p3Scan rest

/-- `extract_sql_from_response` (llm_chatbot_backend.py:254-268): first pattern
with a match wins, the match is returned `.strip()`-ped; `None` otherwise. -/
def extract_sql_from_response (t : String) : Option String :=
  match p1Scan t.data with
  | some cap => some (String.mk (pyStrip cap))
  | none =>
    match p2Scan t.data with
    | some cap => some (String.mk (pyStrip cap))
    | none =>
      match p3Scan t.data with
      | some cap => some (String.mk (pyStrip cap))
      | none => none

/-- `QueryValidator.extract_sql_query` (llm_chatbot_backend.py:359-372): the
same pattern list, but falling back to `response_text.strip()` when nothing
matches. -/
def qv_extract_sql_query (t : String) : String :=
  match p1Scan t.data with
  | some cap => String.mk (pyStrip cap)
  | none =>
    match p2Scan t.data with
    | some cap => String.mk (pyStrip cap)
    | none =>
      match p3Scan t.data with
      | some cap => String.mk (pyStrip cap)
      | none => String.mk (pyStrip t.data)

/-!
### Formatting, intent classification and schema validation helpers
-/

/-- `SQL_CLAUSE_BREAKS` (llm_chatbot_backend.py:191). -/
def SQL_CLAUSE_BREAKS : List String :=
  [" select ", " from ", " where ", " group by ", " order by ", " having ",
   " join ", " left join ", " right join ", " inner join "]

/-- `vertical_format_sql` (llm_chatbot_backend.py:193-201): pad with spaces,
collapse newlines, break before each clause keyword (lower- and upper-case
spellings) upper-casing it, put each `AND` on its own indented line, strip. -/
def vertical_format_sql (sql : String) : String :=
  if sql == "" then sql
  else
    let s0 : List Char := ' ' :: (pyReplace (pyStrip sql.data) "\n".data " ".data ++ [' '])
    let s1 : List Char := SQL_CLAUSE_BREAKS.foldl
      (fun s kw =>
        let rep : List Char := '\n' :: (upperL (pyStrip kw.data) ++ [' '])
        pyReplace (pyReplace s kw.data rep) (upperL kw.data) rep)
      s0
    let s2 := pyReplace (pyReplace s1 " AND ".data "\n  AND ".data) " and ".data "\n  AND ".data
    String.mk (pyStrip s2)

/-- `classify_intent` (llm_chatbot_backend.py:214-222): the deterministic
fallback rule. -/
def classify_intent (message : String) : String :=
  let m := lowerL (pyStrip message.data)
  if hasSub "error".data m &&
      (hasSub "line".data m || hasSub "column".data m || hasSub "syntax".data m) then
    "feedback"
  else if ["hi".data, "hello".data, "hey".data, "yo".data, "sup".data, "hola".data].contains m
      || "hello".data.isPrefixOf m then
    "greet"
  else
    "query"

/-- `llm_classify_intent_llama` (llm_chatbot_backend.py:323-341).  The LLM
call is an oracle: `.error` stands for the call (or client construction)
raising, `.ok t` for the completion text.  With no API key, or on an
exception, or on an unrecognized token, the function returns `"query"`. -/
def llm_classify_intent_llama (message : String) (apiKey : Option String)
    (llmOut : Except Unit String) : String :=
  match apiKey with
  | none => "query"
  | some _ =>
    match llmOut with
    | .error _ => "query"
    | .ok t =>
      let out := String.mk (lowerL (pyStrip t.data))
      if ["greet", "feedback", "query", "irrelevant"].contains out then out else "query"

/-- The intent-resolution step of `process_query`
(llm_chatbot_backend.py:761-764): LLM classifier first, then — only when its
answer is outside the four valid tokens — the deterministic `classify_intent`. -/
def resolveIntent (message : String) (apiKey : Option String)
    (llmOut : Except Unit String) : String :=
  let intent := llm_classify_intent_llama message apiKey llmOut
  if ["greet", "feedback", "query", "irrelevant"].contains intent then intent
  else classify_intent message

/-- `needs_clarification` (llm_chatbot_backend.py:224-231). -/
def needs_clarification (message : String) : Option String :=
  let m := lowerL message.data
  let qs : List String :=
    (if hasSub "folio".data m && !(hasSub " active ".data m || hasSub " all ".data m) then
      ["Did you want only active folios or all?"] else []) ++
    (if hasSub "folio".data m && !(hasSub "999-999-99-9".data m) then
      ["Do you want me to remove reference folio 999-999-99-9 from results?"] else [])
  if qs.isEmpty then none else some (String.intercalate " " qs)

/-- Regex word character for `\b` boundaries: `[A-Za-z0-9_]`. -/
def isWordChar (c : Char) : Bool := c.isAlphanum || c == '_'

/-- `re.search(rf'\b{w}\b', s, re.IGNORECASE)` for a literal `w` made of word
characters: some occurrence with non-word (or absent) characters on both
sides.  `prev` is the character before the current position. -/
def hasWordAux (w : List Char) (prev : Option Char) : List Char → Bool
  | [] => false
  | c :: rest =>
    ((prefixCI w (c :: rest)) &&
      (match prev with | none => true | some p => !(isWordChar p)) &&
      (match (c :: rest).drop w.length with | [] => true | d :: _ => !(isWordChar d)))
    || hasWordAux w (some c) rest

def hasWordCI (w : List Char) (s : List Char) : Bool := hasWordAux w none s

/-- A token of the hallucination regexes: a case-insensitive literal, `\s*`,
or `\s+`.  Every literal in those patterns begins with a non-blank character,
so greedy whitespace matching is deterministic. -/
inductive PatTok where
  | lit (cs : List Char)
  | wsStar
  | wsPlus

def matchSeq : List PatTok → List Char → Bool
  | [], _ => true
  | .lit l :: ts, s => prefixCI l s && matchSeq ts (s.drop l.length)
  | .wsStar :: ts, s => matchSeq ts (s.drop (wsCount s))
  | .wsPlus :: ts, s => decide (1 ≤ wsCount s) && matchSeq ts (s.drop (wsCount s))

/-- `re.search(pat, s, re.IGNORECASE)`: the token sequence matches at some
position. -/
def searchSeq (p : List PatTok) : List Char → Bool
  | [] => matchSeq p []
  | c :: rest => matchSeq p (c :: rest) || searchSeq p rest

/-- `r"EXTRACT\s*\(\s*YEAR\s+FROM\s+DATE_STAMP\s*\)"` (KNOWN_HALLUCINATIONS). -/
def bannedPatExtract : List PatTok :=
  [.lit "EXTRACT".data, .wsStar, .lit "(".data, .wsStar, .lit "YEAR".data, .wsPlus,
   .lit "FROM".data, .wsPlus, .lit "DATE_STAMP".data, .wsStar, .lit ")".data]

/-- `r"YEAR\s*\(\s*DATE_STAMP\s*\)"` (KNOWN_HALLUCINATIONS). -/
def bannedPatYear : List PatTok :=
  [.lit "YEAR".data, .wsStar, .lit "(".data, .wsStar, .lit "DATE_STAMP".data, .wsStar,
   .lit ")".data]

/-- `validate_schema_adherence` (llm_chatbot_backend.py:270-294).  The banned
columns are checked in list order with their specific messages; both banned
patterns contain the substring `"YEAR"`, so the pattern branch always yields
the BILL_YEAR message. -/
def validate_schema_adherence (sql_query : String) : Option String :=
  if sql_query == "" then none
  else if hasWordCI "AP_AMOUNT".data sql_query.data then
    some "Invalid column 'AP_AMOUNT' found. Use 'AMOUNT' instead."
  else if hasWordCI "AP_REFERENCE".data sql_query.data then
    some "Invalid column 'AP_REFERENCE' found. Use 'REFERENCE' instead."
  else if searchSeq bannedPatExtract sql_query.data || searchSeq bannedPatYear sql_query.data then
    some "Don't use EXTRACT(YEAR FROM DATE_STAMP) or YEAR(DATE_STAMP). Use BILL_YEAR column instead."
  else none

/-!
### Schema index, `check_sql_against_schema`, `extract_tables`
-/

/-- The in-memory schema index: lower-cased table name to lower-cased column
names.  `_load_schema_index` builds it from JSON files that are not part of
the repository, so the index is a parameter of the embedded pipeline. -/
def SchemaIndex := List (String × List String)

/-- Maximal-munch identifier at the head: `[A-Za-z_][A-Za-z0-9_]*`. -/
def takeIdent (s : List Char) : Option (List Char × List Char) :=
  match s with
  | [] => none
  | c :: rest =>
    if c.isAlpha || c == '_' then
      some (c :: rest.takeWhile isWordChar, rest.dropWhile isWordChar)
    else none

/-- One match attempt of `([A-Za-z_][A-Za-z0-9_]*)\s*\.\s*([A-Za-z_][A-Za-z0-9_]*)`
at the current position; returns the two groups and the rest of the input
after the match.  Both identifiers are maximal (giving back characters can
never help, since an identifier character is neither `\s` nor `'.'`). -/
def pairAt (s : List Char) : Option ((List Char × List Char) × List Char) :=
  match takeIdent s with
  | none => none
  | some (t, rest1) =>
    let rest2 := rest1.drop (wsCount rest1)
    match rest2 with
    | '.' :: rest3 =>
      let rest4 := rest3.drop (wsCount rest3)
      match takeIdent rest4 with
      | some (c, rest5) => some ((t, c), rest5)
      | none => none
    | _ => none

/-- `re.findall` of the pair regex: scan left to right, jumping over each
match.  Fuel decreases by at least one character per step. -/
def pairsScanAux : Nat → List Char → List (List Char × List Char)
  | 0, _ => []
  | _ + 1, [] => []
  | f + 1, c :: rest =>
    match pairAt (c :: rest) with
    | some (p, rest') => p :: pairsScanAux f rest'
    | none => pairsScanAux f rest

def pairsScan (s : List Char) : List (List Char × List Char) :=
  pairsScanAux s.length s

/-- First `table.column` pair whose lower-cased table is not an index key or
whose lower-cased column is not among that table's columns. -/
def findBadPair (idx : SchemaIndex) : List (List Char × List Char) → Option (List Char × List Char)
  | [] => none
  | (t, c) :: rest =>
    match List.lookup (String.mk (lowerL t)) idx with
    | none => some (t, c)
    | some cols =>
      if cols.contains (String.mk (lowerL c)) then findBadPair idx rest else some (t, c)

/-- `check_sql_against_schema` (llm_chatbot_backend.py:203-212).  With an
empty SQL string or an empty schema index the check is disabled. -/
def check_sql_against_schema (idx : SchemaIndex) (sql : String) : Option String :=
  if sql == "" || idx.isEmpty then none
  else
    match findBadPair idx (pairsScan sql.data) with
    | some (t, c) =>
      some ("Invalid reference: " ++ String.mk t ++ "." ++ String.mk c ++ " is not in schema.")
    | none => none

/-- Python `str.isidentifier()` for the ASCII tokens this code meets. -/
def isIdentifierPy (t : List Char) : Bool :=
  match t with
  | [] => false
  | c :: rest => (c.isAlpha || c == '_') && rest.all isWordChar

/-- The per-part token step of `extract_tables`:
`token = parts[i].strip().split()[0].strip(",")` raises `IndexError` when the
part is all whitespace; `.error ()` models that exception. -/
def tablesOfParts : List (List Char) → Except Unit (List (List Char))
  | [] => .ok []
  | p :: rest =>
    match pySplitWs p with
    | [] => .error ()
    | w :: _ =>
      let token := stripCommas w
      match tablesOfParts rest with
      | .error _ => .error ()
      | .ok acc =>
        .ok (if !token.isEmpty && isIdentifierPy token then token :: acc else acc)

/-- Order-preserving de-duplication (`seen`/`ordered` loop of the source). -/
def dedupAux (seen : List (List Char)) : List (List Char) → List (List Char)
  | [] => []
  | t :: rest =>
    if seen.contains t then dedupAux seen rest else t :: dedupAux (t :: seen) rest

/-- `extract_tables` (llm_chatbot_backend.py:233-252): naive FROM/JOIN capture
over `" " + sql.lower() + " "`, with the possible `IndexError` surfaced as
`.error ()` (the source only guards against it at one of its two call sites). -/
def extract_tables (sql : String) : Except Unit (List String) :=
  if sql == "" then .ok []
  else
    let padded : List Char := ' ' :: (lowerL sql.data ++ [' '])
    let seps : List String := [" from ", " join ", " from\n", " join\n"]
    let step : Except Unit (List (List Char)) := seps.foldl
      (fun acc sep =>
        match acc with
        | .error _ => .error ()
        | .ok ts =>
          match tablesOfParts (pySplitLit sep.data padded).tail with
          | .error _ => .error ()
          | .ok ts' => .ok (ts ++ ts'))
      (.ok [])
    match step with
    | .error _ => .error ()
    | .ok ts => .ok ((dedupAux [] ts).map String.mk)

deriving instance DecidableEq for Except

/-!
### Feedback ledger and health check
-/

/-- `append_feedback_lesson` (llm_chatbot_backend.py:79-94) acting on the
`lessons` list of the persisted payload: a non-empty, not-yet-present lesson
is inserted at index 0 and the list is truncated to 500 entries before the
write; otherwise the file is left unchanged. -/
def append_feedback_lesson (lesson : String) (lessons : List String) : List String :=
  if lesson != "" && !(lessons.contains lesson) then (lesson :: lessons).take 500
  else lessons

/-- A ledger as produced by the code (or the empty initial one): no duplicate
lessons and at most 500 entries. -/
def ledgerWellFormed (l : List String) : Prop := l.Nodup ∧ l.length ≤ 500

instance (l : List String) : Decidable (ledgerWellFormed l) := by
  unfold ledgerWellFormed; infer_instance

/-- A whole sequence of `append_feedback_lesson` calls, oldest first. -/
def applyLessons (ls : List String) (init : List String) : List String :=
  ls.foldl (fun acc x => append_feedback_lesson x acc) init

/-- `required_files` of the `/health` endpoint (llm_chatbot_backend.py:685). -/
def required_files : List String :=
  ["docstore.json", "index_store.json", "default__vector_store.json"]

/-- Truthiness of a `pathlib.Path` object: always `True` (a `Path` defines no
`__bool__`/`__len__`).  Line 686 builds `Path(existing_rag_path) / file` and
passes the Path objects themselves to `all`, never calling `.exists()`. -/
def pathIsTruthy (p : String) : Bool := true

/-- `rag_files_exist` as computed by `health_check`
(llm_chatbot_backend.py:682-686): `False` when no candidate storage directory
exists, otherwise `all(Path(existing_rag_path) / file for file in
required_files)` — a truthiness test on Path objects. -/
def rag_files_exist (existingRagPath : Option String) : Bool :=
  match existingRagPath with
  | some p => required_files.all (fun f => pathIsTruthy (p ++ "/" ++ f))
  | none => false

/-- Modelled from the spec: what the claim says `rag_files_exist` reports —
that all three named index files are present (per `fileExists`) in the located
RAG storage directory. -/
def rag_files_exist_claimed (existingRagPath : Option String)
    (fileExists : String → Bool) : Bool :=
  match existingRagPath with
  | some p => required_files.all (fun f => fileExists (p ++ "/" ++ f))
  | none => false

/-!
### The query pipeline (`process_query`, llm_chatbot_backend.py:717-951)

External capabilities are oracles: `engine n` is the result of the `n`-th
`query_engine.query(...)` call of the request (`.error e` = the call raising
with message `e`), `minimalResult` the result of the single-result fallback
engine, and so on.  The embedding records every prompt sent to the engine.
-/

/-- The fixed placeholder response of the terminal fallback
(llm_chatbot_backend.py:867-872 and 875-880; both branches are identical). -/
def FALLBACK_RESPONSE : String := "```sql\nSELECT * FROM your_table WHERE condition = 'value';\n```\n\n**Explanation:**\nI encountered an error while processing your request. Please make sure the RAG index is properly built by running 'python SQL_App/rag_code.py' first. This is a fallback response."

/-- Outcome of the generation/validation block (lines 827-880). -/
structure GenResult where
  responseText : String
  lockedTables : List String
  enginePrompts : List String
  minimalCalls : Nat
  dynCheckedSql : Option String
deriving DecidableEq

/-- The `except` branch (lines 856-880): a `"context size"` error with a
loaded index first tries the `similarity_top_k=1` engine; any other error —
or a failing minimal attempt — yields the fixed placeholder.  `locked`,
`prompts` and `dyn` carry whatever the `try` block had already established
before raising. -/
def genExcept (locked : List String) (prompts : List String) (dyn : Option String)
    (e : String) (indexLoaded : Bool) (minimalResult : Except String String) : GenResult :=
  if hasSub "context size".data (lowerL e.data) && indexLoaded then
    match minimalResult with
    | .ok t =>
      { responseText := t, lockedTables := locked, enginePrompts := prompts,
        minimalCalls := 1, dynCheckedSql := dyn }
    | .error _ =>
      { responseText := FALLBACK_RESPONSE, lockedTables := locked, enginePrompts := prompts,
        minimalCalls := 1, dynCheckedSql := dyn }
  else
    { responseText := FALLBACK_RESPONSE, lockedTables := locked, enginePrompts := prompts,
      minimalCalls := 0, dynCheckedSql := dyn }

def ERROR_SUFFIX_STATIC : String :=
  "\nPlease fix the query above to use only valid column names from the schema."

def ERROR_SUFFIX_SCHEMA : String :=
  "\nRegenerate using only schema-valid table.column references."

/-- The "hard schema check" step (lines 849-854).  Note that `q` is the SQL
extracted from the *initial* response — the source never re-extracts after
the first corrective regeneration. -/
def dynStep (ctx : String) (idx : SchemaIndex) (engine : Nat → Except String String)
    (indexLoaded : Bool) (minimalResult : Except String String) (q : String)
    (locked : List String) (tCur : String) (prompts : List String) (nextIdx : Nat) :
    GenResult :=
  match check_sql_against_schema idx q with
  | some serr =>
    let p := ctx ++ "\n\nERROR: " ++ serr ++ ERROR_SUFFIX_SCHEMA
    match engine nextIdx with
    | .ok t2 =>
      { responseText := t2, lockedTables := locked, enginePrompts := prompts ++ [p],
        minimalCalls := 0, dynCheckedSql := some q }
    | .error e2 => genExcept locked (prompts ++ [p]) (some q) e2 indexLoaded minimalResult
  | none =>
    { responseText := tCur, lockedTables := locked, enginePrompts := prompts,
      minimalCalls := 0, dynCheckedSql := some q }

/-- Lines 827-880: initial generation, locked-table capture, the static
deny-list check with at most one corrective regeneration, the dynamic schema
check with at most one corrective regeneration, and the exception fallbacks. -/
def generationPhase (ctx : String) (idx : SchemaIndex) (engine : Nat → Except String String)
    (indexLoaded : Bool) (minimalResult : Except String String) : GenResult :=
  match engine 0 with
  | .error e => genExcept [] [ctx] none e indexLoaded minimalResult
  | .ok t0 =>
    let locked : List String :=
      match extract_sql_from_response t0 with
      | some q0 =>
        match extract_tables q0 with
        | .ok ts => ts.filter (fun t => (List.lookup t idx).isSome)
        | .error _ => []
      | none => []
    match extract_sql_from_response t0 with
    | none =>
      { responseText := t0, lockedTables := locked, enginePrompts := [ctx],
        minimalCalls := 0, dynCheckedSql := none }
    | some q =>
      match validate_schema_adherence q with
      | some verr =>
        let p1 := ctx ++ "\n\nERROR: " ++ verr ++ ERROR_SUFFIX_STATIC
        match engine 1 with
        | .ok t1 => dynStep ctx idx engine indexLoaded minimalResult q locked t1 [ctx, p1] 2
        | .error e1 => genExcept locked [ctx, p1] none e1 indexLoaded minimalResult
      | none => dynStep ctx idx engine indexLoaded minimalResult q locked t0 [ctx] 1

/-- Outcome of the table-locking block (lines 903-927). -/
structure LockResult where
  refinedQuery : String
  refinedExplanation : String
  enginePrompts : List String
deriving DecidableEq

def CONSTRAINT_HEAD : String := "\n\nCRITICAL: Do not change tables. Use exactly these tables: "

def CONSTRAINT_SUFFIX : String :=
  ".\nRegenerate the SQL using the same user intent, keeping these base tables unchanged."

/-- Lines 903-927: vertical formatting, then — when tables were locked — the
missing-table comparison, at most one constrained regeneration (its failure
is swallowed), and the conditional explanation bullet.  `extract_tables` on
the formatted query is *not* inside any local `try`, so its `IndexError`
propagates (`.error ()`) to the top-level handler. -/
def lockingPhase (ctx : String) (lockedTables : List String) (rq0 ex0 : String)
    (engineRes : Except String String) : Except Unit LockResult :=
  let rq := vertical_format_sql rq0
  if lockedTables.isEmpty then
    .ok { refinedQuery := rq, refinedExplanation := ex0, enginePrompts := [] }
  else
    match extract_tables rq with
    | .error _ => .error ()
    | .ok presentAfter =>
      let missing := lockedTables.filter (fun t => !(presentAfter.contains t))
      let step : String × List String :=
        if missing.isEmpty then (rq, [])
        else
          let prompt := ctx ++ CONSTRAINT_HEAD ++ String.intercalate ", " lockedTables
            ++ CONSTRAINT_SUFFIX
          match engineRes with
          | .ok r2 =>
            match extract_sql_from_response r2 with
            | some cand => (vertical_format_sql cand, [prompt])
            | none => (rq, [prompt])
          | .error _ => (rq, [prompt])
      let bullet := "• Tables locked: " ++ String.intercalate ", " lockedTables ++ "\n"
      let ex :=
        if ex0 ≠ "" ∧ "•".data.isPrefixOf (pyStrip ex0.data) = false then bullet ++ ex0
        else ex0
      .ok { refinedQuery := step.1, refinedExplanation := ex, enginePrompts := step.2 }

/-- `QueryRequest` (message, optional session id). -/
structure QueryRequestM where
  message : String
  session_id : Option String

/-- `QueryResponse`. -/
structure QueryResponseM where
  session_id : String
  sql_query : String
  explanation : String
  message_id : String
deriving DecidableEq

/-- One oracle per external capability touched by `process_query`. -/
structure Oracles where
  apiKey : Option String
  intentLlm : Except Unit String
  sessionFound : Bool
  lessons : String
  engine : Nat → Except String String
  indexLoaded : Bool
  minimalResult : Except String String
  refineResult : Except Unit (String × String)

/-- The observable outcome of one `POST /query` request: the HTTP-level
result plus instrumentation of every external capability use. -/
structure PQResult where
  result : Except Nat QueryResponseM
  enginePrompts : List String
  minimalCalls : Nat
  intentLlmCalls : Nat
  refineCalls : Nat
  ledgerAppends : List String
deriving DecidableEq

/-- `CHATBOT_SEALED` (llm_chatbot_backend.py:149). -/
def CHATBOT_SEALED : Bool := true

/-- The static schema-instruction block (lines 813-820). -/
def SCHEMA_NOTE : String := "\n<!--------------------  SCHEMA_INSTRUCTION  ------------------->\nIMPORTANT: Use ONLY the column names and table structures provided by the RAG system below.\nThe RAG system has access to the complete, authoritative database schema.\nNEVER invent or assume column names - trust the schema information provided.\n<!---------------------  END_INSTRUCTION    ------------------->\n\n"

def GREET_REPLY : String := "Hello! I’m here to generate SQL queries for your database. Describe the data you want and I’ll create a query, or paste an error you saw and I’ll fix it."

def IRRELEVANT_NOTE : String := "I can only assist with database SQL queries. Please describe the data you want and I’ll build a query for you."

def BOILERPLATE_EXPLANATION : String := "This SQL query retrieves data based on your specific requirements using the appropriate database tables and conditions."

def noCalls (r : Except Nat QueryResponseM) : PQResult :=
  { result := r, enginePrompts := [], minimalCalls := 0, intentLlmCalls := 0,
    refineCalls := 0, ledgerAppends := [] }

/-- `process_query` (llm_chatbot_backend.py:717-951).  `sealed` is the value
of `CHATBOT_SEALED`; `uuids` is the stream of `uuid.uuid4()` draws;
`schemaIdx` the loaded `SCHEMA_INDEX`; `queryEngineInit` whether startup
initialisation succeeded.  An `HTTPException` raised inside the `try` block
(including the 404 for a missing session) is caught by the top-level
`except Exception` and re-raised as a 500, hence `.error 500` below. -/
def process_query (sealed : Bool) (req : QueryRequestM) (uuids : Nat → String)
    (o : Oracles) (schemaIdx : SchemaIndex) (queryEngineInit : Bool) : PQResult :=
  if sealed then
    noCalls (.ok { session_id := req.session_id.getD (uuids 0), sql_query := "",
                   explanation := "ACCESS DENIED", message_id := uuids 1 })
  else if !queryEngineInit then
    noCalls (.error 500)
  else if req.session_id.isSome && !o.sessionFound then
    noCalls (.error 500)
  else
    let intent := resolveIntent req.message o.apiKey o.intentLlm
    let ic : Nat := if o.apiKey.isSome then 1 else 0
    let sid := req.session_id.getD (uuids 0)
    if intent == "greet" then
      { result := .ok { session_id := sid, sql_query := "", explanation := GREET_REPLY,
                        message_id := uuids 1 },
        enginePrompts := [], minimalCalls := 0, intentLlmCalls := ic, refineCalls := 0,
        ledgerAppends := [] }
    else if intent == "irrelevant" then
      { result := .ok { session_id := sid, sql_query := "", explanation := IRRELEVANT_NOTE,
                        message_id := uuids 1 },
        enginePrompts := [], minimalCalls := 0, intentLlmCalls := ic, refineCalls := 0,
        ledgerAppends := [] }
    else if intent == "feedback" then
      { result := .ok { session_id := sid, sql_query := "", explanation := "Recorded feedback.",
                        message_id := uuids 1 },
        enginePrompts := [], minimalCalls := 0, intentLlmCalls := ic, refineCalls := 0,
        ledgerAppends := ["User-reported error/context: " ++ String.mk (req.message.data.take 500)] }
    else
      let ask := needs_clarification req.message
      let user_text :=
        if ask.isSome then
          req.message ++ "\nDEFAULTS: active folios; exclude reference folio 999-999-99-9."
        else req.message
      let note := SCHEMA_NOTE ++
        (if o.lessons != "" then
          "\n<!----- FEEDBACK LESSONS ----->\n" ++ o.lessons ++ "\n<!----- END LESSONS ----->\n"
        else "")
      let ctx := note ++ user_text
      let gen := generationPhase ctx schemaIdx o.engine o.indexLoaded o.minimalResult
      let rf : String × String :=
        match o.refineResult with
        | .ok p => p
        | .error _ => (qv_extract_sql_query gen.responseText, BOILERPLATE_EXPLANATION)
      match lockingPhase ctx gen.lockedTables rf.1 rf.2 (o.engine gen.enginePrompts.length) with
      | .error _ =>
        { result := .error 500, enginePrompts := gen.enginePrompts,
          minimalCalls := gen.minimalCalls, intentLlmCalls := ic, refineCalls := 1,
          ledgerAppends := [] }
      | .ok lr =>
        { result := .ok { session_id := sid, sql_query := lr.refinedQuery,
                          explanation := lr.refinedExplanation, message_id := uuids 1 },
          enginePrompts := gen.enginePrompts ++ lr.enginePrompts,
          minimalCalls := gen.minimalCalls, intentLlmCalls := ic, refineCalls := 1,
          ledgerAppends := [] }

/-!
Sanity checks: concrete Python-behaviour evaluations of the embedded
functions.
-/

example : pyStrip "  ab \n".data = "ab".data := by decide
example : pyReplace " a and b ".data " and ".data "\n  AND ".data = " a\n  AND b ".data := by
  decide
example : pySplitLit " from ".data " x from y ".data = [" x".data, "y ".data] := by decide
example : pySplitWs "  a  bc ".data = ["a".data, "bc".data] := by decide
example : hasSub "context size".data (lowerL "Max Context Size hit".data) = true := by decide
example : extract_sql_from_response "```sql\nSELECT a FROM t;\n```" =
    some "SELECT a FROM t;" := by decide
example : extract_sql_from_response "pre ``` SELECT a;\n``` post" = some "SELECT a;" := by
  decide
example : extract_sql_from_response "text SELECT a FROM t; more" = some "SELECT a FROM t;" := by
  decide
example : extract_sql_from_response "no statement here" = none := by decide
example : qv_extract_sql_query " no statement here " = "no statement here" := by decide
example : vertical_format_sql "select a from b where c and d" =
    "SELECT a\nFROM b\nWHERE c\n  AND d" := by decide
example : validate_schema_adherence "SELECT AP_AMOUNT FROM bills;" =
    some "Invalid column 'AP_AMOUNT' found. Use 'AMOUNT' instead." := by decide
example : validate_schema_adherence "SELECT ap_amounts FROM bills;" = none := by decide
example : validate_schema_adherence "SELECT year ( DATE_STAMP ) FROM b;" =
    some "Don't use EXTRACT(YEAR FROM DATE_STAMP) or YEAR(DATE_STAMP). Use BILL_YEAR column instead." := by
  decide
example : check_sql_against_schema [("t", ["a"])] "SELECT t.a FROM t;" = none := by decide
example : check_sql_against_schema [("t", ["a"])] "SELECT x.bad FROM x;" =
    some "Invalid reference: x.bad is not in schema." := by decide
example : check_sql_against_schema [] "SELECT x.bad FROM x;" = none := by decide
example : extract_tables "SELECT a FROM t1 JOIN t2 ON x" = .ok ["t1", "t2"] := by decide
example : extract_tables "SELECT a FROM t;" = .ok [] := by decide
example : extract_tables "select x from " = .error () := by decide
example : extract_tables "SELECT a\nFROM s" = .ok [] := by decide

/-!
## Claim theorems
-/

/-- Claim C1: with the deployment seal flag (`CHATBOT_SEALED`) enabled, every
`POST /query` request — any payload, any oracle behaviour — yields
`sql_query = ""` and `explanation = "ACCESS DENIED"`, with zero retrieval or
generation calls, zero intent-classifier and refinement calls, and no feedback
ledger write: the pipeline is never touched. -/
theorem process_query_sealed_denies (req : QueryRequestM) (uuids : Nat → String)
    (o : Oracles) (schemaIdx : SchemaIndex) (queryEngineInit : Bool) :
    process_query CHATBOT_SEALED req uuids o schemaIdx queryEngineInit =
      { result := .ok { session_id := req.session_id.getD (uuids 0), sql_query := "",
                        explanation := "ACCESS DENIED", message_id := uuids 1 },
        enginePrompts := [], minimalCalls := 0, intentLlmCalls := 0, refineCalls := 0,
        ledgerAppends := [] } := rfl

/-- Claim C2 (code bug): when the generative classifier is unavailable (no API
key), errors, or returns an unrecognized token, `llm_classify_intent_llama`
returns `"query"` — a member of the accepted token set — so the guard in
`process_query` never invokes the deterministic fallback `classify_intent`.
On the failing input `"syntax error near line 12"` the deterministic rule
would say `feedback` (and the ledger would gain an entry), but the resolved
intent is `query` and no ledger entry is written. -/
theorem intent_fallback_divergence :
    (∀ llmOut : Except Unit String,
      resolveIntent "syntax error near line 12" none llmOut = "query") ∧
    resolveIntent "syntax error near line 12" (some "key") (.error ()) = "query" ∧
    resolveIntent "syntax error near line 12" (some "key") (.ok "banana") = "query" ∧
    classify_intent "syntax error near line 12" = "feedback" ∧
    (process_query false { message := "syntax error near line 12", session_id := none }
        (fun _ => "u")
        { apiKey := none, intentLlm := .error (), sessionFound := true, lessons := "",
          engine := fun _ => .ok "no structured statement", indexLoaded := false,
          minimalResult := .ok "m", refineResult := .ok ("q", "e") }
        [] true).ledgerAppends = [] ∧
    ("query" : String) ≠ "feedback" := by
  refine ⟨fun llmOut => rfl, by decide, by decide, by decide, rfl, by decide⟩

/-- Claim C7 (code bug): `vertical_format_sql` is not idempotent.  On
`"a and b"` a first application yields `"a\n  AND b"`, but a second
application turns the line break back into a space, re-matches `" AND "`, and
leaves two extra trailing blanks: `"a  \n  AND b"`. -/
theorem vertical_format_sql_not_idempotent_eval :
    vertical_format_sql "a and b" = "a\n  AND b" ∧
    vertical_format_sql (vertical_format_sql "a and b") = "a  \n  AND b" ∧
    vertical_format_sql (vertical_format_sql "a and b") ≠ vertical_format_sql "a and b" := by
  refine ⟨by decide, by decide, by decide⟩

/-- Claim C9 (code bug): `health_check` computes `rag_files_exist` with
`all(Path(existing_rag_path) / file for file in required_files)`, a truthiness
test on `Path` objects (always true) — `.exists()` is never called.  With the
storage directory located but none of the three index files present, the code
reports `true` while the claimed semantics report `false`. -/
theorem rag_files_exist_ignores_file_presence :
    rag_files_exist (some "SQL_App/rag_storage") = true ∧
    rag_files_exist_claimed (some "SQL_App/rag_storage") (fun _ => false) = false ∧
    rag_files_exist (some "SQL_App/rag_storage") ≠
      rag_files_exist_claimed (some "SQL_App/rag_storage") (fun _ => false) := by
  refine ⟨rfl, rfl, by decide⟩

/-- Claim C3, counterexample: an initial generation failure whose message does
not contain `"context size"` skips the single-result retrieval fallback
entirely (zero minimal calls) and goes straight to the placeholder, refuting
"for every request whose initial generation call raises, the pipeline falls
back to a retrieval call with similarity_top_k = 1". -/
theorem generationPhase_noncontext_size_no_minimal :
    (generationPhase "ctx" [] (fun _ => .error "timeout") true (.ok "MINIMAL")).minimalCalls
      = 0 ∧
    (generationPhase "ctx" [] (fun _ => .error "timeout") true (.ok "MINIMAL")).responseText
      = FALLBACK_RESPONSE ∧
    (generationPhase "ctx" [] (fun _ => .error "timeout") true (.ok "MINIMAL")).enginePrompts
      = ["ctx"] := by
  refine ⟨by decide, by decide, by decide⟩

/-- Claim C4, counterexample: after the static deny-list check fails and one
corrective regeneration is issued, the pipeline does *not* re-extract — the
dynamic schema check still receives the SQL extracted from the initial
response, not the SQL of the regenerated response (which here contains the
schema-invalid `x.bad` the dynamic check would have flagged). -/
theorem generationPhase_dynamic_check_uses_original_sql :
    (generationPhase "" [("t", ["a"])]
        (fun n => .ok (if n == 0 then "```sql\nSELECT AP_AMOUNT FROM t;\n```"
                       else "```sql\nSELECT x.bad FROM x;\n```")) false (.ok "m"))
      = { responseText := "```sql\nSELECT x.bad FROM x;\n```", lockedTables := [],
          enginePrompts := ["",
            "\n\nERROR: Invalid column 'AP_AMOUNT' found. Use 'AMOUNT' instead.\nPlease fix the query above to use only valid column names from the schema."],
          minimalCalls := 0, dynCheckedSql := some "SELECT AP_AMOUNT FROM t;" } ∧
    extract_sql_from_response "```sql\nSELECT x.bad FROM x;\n```"
      = some "SELECT x.bad FROM x;" ∧
    some "SELECT AP_AMOUNT FROM t;" ≠ some "SELECT x.bad FROM x;" ∧
    check_sql_against_schema [("t", ["a"])] "SELECT x.bad FROM x;"
      = some "Invalid reference: x.bad is not in schema." := by
  refine ⟨by decide, by decide, by decide, by decide⟩

/-- Claim C5, counterexample: locked table `t` is missing from the refined,
reformatted SQL and the single constrained regeneration is issued, but with an
empty refined explanation no "Tables locked" bullet is prepended — the final
explanation stays empty, refuting "on success or failure an explanation bullet
listing the locked tables is prepended". -/
theorem lockingPhase_empty_explanation_no_bullet :
    lockingPhase "c" ["t"] "select a from s" "" (.ok "```sql\nSELECT a FROM t;\n```")
      = .ok { refinedQuery := "SELECT a\nFROM t;", refinedExplanation := "",
              enginePrompts := ["c\n\nCRITICAL: Do not change tables. Use exactly these tables: t.\nRegenerate the SQL using the same user intent, keeping these base tables unchanged."] } ∧
    hasSub "Tables locked".data ("" : String).data = false := by
  refine ⟨by decide, by decide⟩

/-- Claim C3 (amended): when the *initial* generation call raises with an
error message containing `"context size"` (case-insensitively) and the index
is loaded, the pipeline issues exactly one single-result
(`similarity_top_k=1`) retrieval call; if that call succeeds its text is the
response, and if it also raises the fixed placeholder response — which
contains the inert query and the rebuild-the-index explanation — is returned
without raising (the branch is a total function).  Errors without
`"context size"` skip the minimal retrieval (see the counterexample). -/
theorem generationPhase_context_size_fallback (ctx : String) (idx : SchemaIndex)
    (engine : Nat → Except String String) (minimalResult : Except String String) (e : String)
    (h0 : engine 0 = .error e)
    (hcs : hasSub "context size".data (lowerL e.data) = true) :
    (generationPhase ctx idx engine true minimalResult).minimalCalls = 1 ∧
    (∀ t, minimalResult = .ok t →
      (generationPhase ctx idx engine true minimalResult).responseText = t) ∧
    (∀ e2, minimalResult = .error e2 →
      (generationPhase ctx idx engine true minimalResult).responseText = FALLBACK_RESPONSE) ∧
    (generationPhase ctx idx engine true minimalResult).enginePrompts = [ctx] ∧
    hasSub "SELECT * FROM your_table WHERE condition = 'value';".data FALLBACK_RESPONSE.data
      = true ∧
    hasSub "RAG index is properly built".data FALLBACK_RESPONSE.data = true := by
  have hg : generationPhase ctx idx engine true minimalResult =
      genExcept [] [ctx] none e true minimalResult := by
    unfold generationPhase
    rw [h0]
  cases minimalResult with
  | ok t0 =>
    refine ⟨?_, ?_, ?_, ?_, by decide, by decide⟩
    · rw [hg]; unfold genExcept; rw [hcs]; rfl
    · intro t ht
      injection ht with h
      subst h
      rw [hg]; unfold genExcept; rw [hcs]; rfl
    · intro e2 he2
      simp at he2
    · rw [hg]; unfold genExcept; rw [hcs]; rfl
  | error e0 =>
    refine ⟨?_, ?_, ?_, ?_, by decide, by decide⟩
    · rw [hg]; unfold genExcept; rw [hcs]; rfl
    · intro t ht
      simp at ht
    · intro e2 he2
      rw [hg]; unfold genExcept; rw [hcs]; rfl
    · rw [hg]; unfold genExcept; rw [hcs]; rfl

/-- Claim C3, witness for the amended theorem at a concrete input. -/
theorem generationPhase_context_size_fallback_witness :
    (generationPhase "Q" [] (fun _ => .error "request context size exceeded") true
      (.error "boom")).minimalCalls = 1 ∧
    (generationPhase "Q" [] (fun _ => .error "request context size exceeded") true
      (.error "boom")).responseText = FALLBACK_RESPONSE :=
  ⟨(generationPhase_context_size_fallback "Q" [] (fun _ => .error "request context size exceeded")
      (.error "boom") "request context size exceeded" rfl (by decide)).1,
   (generationPhase_context_size_fallback "Q" [] (fun _ => .error "request context size exceeded")
      (.error "boom") "request context size exceeded" rfl (by decide)).2.2.1 "boom" rfl⟩

/-- Claim C4 (amended): on a successfully generated response with extracted
SQL `q`, the pipeline runs the static deny-list check and then the dynamic
schema check, each failing check triggering exactly one corrective
regeneration whose prompt is the context plus the explicit violation message —
at most one round per check category, never more than three engine calls in
total, and no minimal-retrieval call.  However, the SQL is *not* re-extracted
between rounds: the dynamic check receives `q`, the SQL extracted from the
initial response (see the counterexample). -/
theorem generationPhase_one_round_per_check (ctx : String) (idx : SchemaIndex)
    (engineOk : Nat → String) (indexLoaded : Bool) (minimalResult : Except String String)
    (q : String) (hx : extract_sql_from_response (engineOk 0) = some q) :
    (generationPhase ctx idx (fun n => .ok (engineOk n)) indexLoaded minimalResult).dynCheckedSql
      = some q ∧
    (generationPhase ctx idx (fun n => .ok (engineOk n)) indexLoaded minimalResult).minimalCalls
      = 0 ∧
    (generationPhase ctx idx (fun n => .ok (engineOk n)) indexLoaded minimalResult).enginePrompts
      = [ctx] ++
        (match validate_schema_adherence q with
         | some m => [ctx ++ "\n\nERROR: " ++ m ++ ERROR_SUFFIX_STATIC]
         | none => []) ++
        (match check_sql_against_schema idx q with
         | some m => [ctx ++ "\n\nERROR: " ++ m ++ ERROR_SUFFIX_SCHEMA]
         | none => []) ∧
    (generationPhase ctx idx (fun n => .ok (engineOk n)) indexLoaded minimalResult).enginePrompts.length
      ≤ 3 := by
  cases hv : validate_schema_adherence q with
  | some m =>
    cases hc : check_sql_against_schema idx q with
    | some m2 =>
      simp only [generationPhase, hx, hv, dynStep, hc]
      refine ⟨?_, ?_, ?_, ?_⟩ <;> simp
    | none =>
      simp only [generationPhase, hx, hv, dynStep, hc]
      refine ⟨?_, ?_, ?_, ?_⟩ <;> simp
  | none =>
    cases hc : check_sql_against_schema idx q with
    | some m2 =>
      simp only [generationPhase, hx, hv, dynStep, hc]
      refine ⟨?_, ?_, ?_, ?_⟩ <;> simp
    | none =>
      simp only [generationPhase, hx, hv, dynStep, hc]
      refine ⟨?_, ?_, ?_, ?_⟩ <;> simp

/-- Claim C4, witness for the amended theorem at a concrete input: the first
response carries the banned column `AP_AMOUNT`, so one static-check
regeneration is issued and the dynamic check still examines the original
extraction. -/
theorem generationPhase_one_round_per_check_witness :
    (generationPhase "" [("t", ["a"])]
        (fun n => .ok (if n == 0 then "```sql\nSELECT AP_AMOUNT FROM t;\n```" else "Y"))
        false (.ok "m")).dynCheckedSql = some "SELECT AP_AMOUNT FROM t;" ∧
    (generationPhase "" [("t", ["a"])]
        (fun n => .ok (if n == 0 then "```sql\nSELECT AP_AMOUNT FROM t;\n```" else "Y"))
        false (.ok "m")).enginePrompts.length ≤ 3 :=
  ⟨(generationPhase_one_round_per_check "" [("t", ["a"])]
      (fun n => if n == 0 then "```sql\nSELECT AP_AMOUNT FROM t;\n```" else "Y") false (.ok "m")
      "SELECT AP_AMOUNT FROM t;" (by decide)).1,
   (generationPhase_one_round_per_check "" [("t", ["a"])]
      (fun n => if n == 0 then "```sql\nSELECT AP_AMOUNT FROM t;\n```" else "Y") false (.ok "m")
      "SELECT AP_AMOUNT FROM t;" (by decide)).2.2.2⟩

/-- Claim C5 (amended): when the first extraction produced a non-empty set of
schema-valid locked tables and some locked table is absent from the tables
referenced by the refined, reformatted SQL, exactly one constrained
regeneration is issued — its prompt listing the locked tables — regardless of
whether that call succeeds or fails (never a loop); but the explanation
bullet listing the locked tables is prepended only when the refined
explanation is non-empty and does not already start with `•`: an empty
explanation stays empty (see the counterexample) and a bullet-initial one is
left unchanged. -/
theorem lockingPhase_single_regen_bullet (ctx : String) (locked : List String)
    (rq0 ex0 : String) (engineRes : Except String String) (pa : List String) (t : String)
    (hne : locked ≠ [])
    (hpa : extract_tables (vertical_format_sql rq0) = .ok pa)
    (ht : t ∈ locked) (hmiss : pa.contains t = false) :
    ∃ res, lockingPhase ctx locked rq0 ex0 engineRes = .ok res ∧
      res.enginePrompts
        = [ctx ++ CONSTRAINT_HEAD ++ String.intercalate ", " locked ++ CONSTRAINT_SUFFIX] ∧
      (ex0 = "" → res.refinedExplanation = "") ∧
      (ex0 ≠ "" → "•".data.isPrefixOf (pyStrip ex0.data) = false →
        res.refinedExplanation
          = "• Tables locked: " ++ String.intercalate ", " locked ++ "\n" ++ ex0) ∧
      (ex0 ≠ "" → "•".data.isPrefixOf (pyStrip ex0.data) = true →
        res.refinedExplanation = ex0) := by
  have hE : locked.isEmpty = false := by
    cases locked with
    | nil => exact absurd rfl hne
    | cons a l => rfl
  have htm : t ∈ locked.filter (fun x => !(pa.contains x)) :=
    List.mem_filter.mpr ⟨ht, by rw [hmiss]; rfl⟩
  have hM : (locked.filter (fun x => !(pa.contains x))).isEmpty = false := by
    cases hmem : locked.filter (fun x => !(pa.contains x)) with
    | nil => rw [hmem] at htm; exact absurd htm (List.not_mem_nil t)
    | cons a l => rfl
  simp only [lockingPhase, hE, hpa, hM, Bool.false_eq_true, if_false]
  refine ⟨_, rfl, ?_, ?_, ?_, ?_⟩
  · cases engineRes with
    | ok r2 =>
      cases hr : extract_sql_from_response r2 with
      | some cand => simp only [hr]
      | none => simp only [hr]
    | error e => rfl
  · intro h
    subst h
    simp
  · intro h1 h2
    simp only [if_pos (And.intro h1 h2)]
  · intro h1 h2
    rw [if_neg]
    rintro ⟨-, hcontra⟩
    rw [h2] at hcontra
    simp at hcontra

/-- Claim C5, witness for the amended theorem at a concrete input (the locked
table `t` is absent from the reformatted refined query, the constrained
regeneration itself fails, and the non-empty explanation gains the bullet). -/
theorem lockingPhase_single_regen_bullet_witness :
    ∃ res, lockingPhase "c" ["t"] "select a from s" "uses table t" (.error "x") = .ok res ∧
      res.enginePrompts
        = ["c" ++ CONSTRAINT_HEAD ++ String.intercalate ", " ["t"] ++ CONSTRAINT_SUFFIX] ∧
      ("uses table t" = "" → res.refinedExplanation = "") ∧
      ("uses table t" ≠ "" → "•".data.isPrefixOf (pyStrip "uses table t".data) = false →
        res.refinedExplanation
          = "• Tables locked: " ++ String.intercalate ", " ["t"] ++ "\n" ++ "uses table t") ∧
      ("uses table t" ≠ "" → "•".data.isPrefixOf (pyStrip "uses table t".data) = true →
        res.refinedExplanation = "uses table t") :=
  lockingPhase_single_regen_bullet "c" ["t"] "select a from s" "uses table t" (.error "x") [] "t"
    (by decide) (by decide) (by decide) (by decide)

/-- One `append_feedback_lesson` call preserves the ledger invariant. -/
theorem append_feedback_lesson_wf (x : String) (acc : List String)
    (h : ledgerWellFormed acc) : ledgerWellFormed (append_feedback_lesson x acc) := by
  unfold append_feedback_lesson
  split
  case isTrue hcond =>
    simp only [Bool.and_eq_true, bne_iff_ne, ne_eq, Bool.not_eq_true] at hcond
    obtain ⟨h1, h2⟩ := hcond
    have hx : x ∉ acc := by
      intro hmem
      have hmem2 : acc.contains x = true := List.elem_iff.mpr hmem
      rw [hmem2] at h2
      simp at h2
    constructor
    · exact ((x :: acc).take_sublist 500).nodup (List.nodup_cons.mpr ⟨hx, h.1⟩)
    · calc ((x :: acc).take 500).length = min 500 (x :: acc).length := List.length_take _ _
        _ ≤ 500 := min_le_left _ _
  case isFalse => exact h

/-- Claim C6: starting from an empty or well-formed ledger, any sequence of
`append_feedback_lesson` calls keeps the ledger within the 500-entry cap and
free of duplicate lesson strings; and every lesson that is actually inserted
(non-empty, not already present) goes to the front of the list — the ledger
stays most-recent-first. -/
theorem append_feedback_lesson_invariant (init ls : List String)
    (h : ledgerWellFormed init) :
    ledgerWellFormed (applyLessons ls init) ∧
    ∀ x acc, x ≠ "" → acc.contains x = false →
      append_feedback_lesson x acc = (x :: acc).take 500 := by
  constructor
  · induction ls generalizing init with
    | nil => exact h
    | cons a as ih => exact ih _ (append_feedback_lesson_wf a init h)
  · intro x acc hx hc
    have hcond : (x != "" && !(acc.contains x)) = true := by
      rw [hc]
      simp [hx]
    unfold append_feedback_lesson
    rw [hcond]
    rfl

/-- Claim C6, witness: the invariant theorem applied to a concrete ledger and
append sequence (with a duplicate and an empty lesson in the stream), and the
front-insertion equation at a concrete input. -/
theorem append_feedback_lesson_invariant_witness :
    ledgerWellFormed (applyLessons ["a", "b", "a", ""] ["old"]) ∧
    append_feedback_lesson "b" ["a"] = (["b", "a"]).take 500 :=
  ⟨(append_feedback_lesson_invariant ["old"] ["a", "b", "a", ""] (by decide)).1,
   (append_feedback_lesson_invariant [] [] (by decide)).2 "b" ["a"] (by decide) (by decide)⟩

/-- Claim C10: on any input on which none of the three SQL extraction
patterns matches, the refinement pass's extractor
`QueryValidator.extract_sql_query` returns the entire input stripped of
surrounding whitespace, while the pipeline-level `extract_sql_from_response`
returns `none` on the same input — so the refined "SQL" may be arbitrary
non-SQL text. -/
theorem validator_extract_falls_back_to_stripped_input (t : String)
    (h1 : p1Scan t.data = none) (h2 : p2Scan t.data = none) (h3 : p3Scan t.data = none) :
    qv_extract_sql_query t = String.mk (pyStrip t.data) ∧
    extract_sql_from_response t = none := by
  unfold qv_extract_sql_query extract_sql_from_response
  rw [h1, h2, h3]
  exact ⟨rfl, rfl⟩

/-- Claim C10, witness: concrete non-SQL input. -/
theorem validator_extract_falls_back_to_stripped_input_witness :
    qv_extract_sql_query " hello world " = String.mk (pyStrip " hello world ".data) ∧
    extract_sql_from_response " hello world " = none :=
  validator_extract_falls_back_to_stripped_input " hello world "
    (by decide) (by decide) (by decide)

/-- Shortening the pattern preserves a case-insensitive prefix match. -/
theorem prefixCI_of_append (p₁ p₂ s : List Char)
    (h : prefixCI (p₁ ++ p₂) s = true) : prefixCI p₁ s = true := by
  induction p₁ generalizing s with
  | nil => rfl
  | cons a p ih =>
    cases s with
    | nil => simp [prefixCI] at h
    | cons c cs =>
      simp only [List.cons_append, prefixCI, Bool.and_eq_true] at h ⊢
      exact ⟨h.1, ih cs h.2⟩

/-- Splitting `hasSub = false` at a cons cell. -/
theorem hasSub_false_cons (pat : List Char) (c : Char) (rest : List Char)
    (h : hasSub pat (c :: rest) = false) :
    prefixCI pat (c :: rest) = false ∧ hasSub pat rest = false := by
  simp only [hasSub, Bool.or_eq_false_iff] at h
  exact h

/-- Without any (case-insensitive) fence ` ``` ` in the text, the first
extraction pattern can match nowhere. -/
theorem p1Scan_eq_none_of_no_fence (s : List Char)
    (h : hasSub "```".data s = false) : p1Scan s = none := by
  induction s with
  | nil => rfl
  | cons c rest ih =>
    obtain ⟨h1, h2⟩ := hasSub_false_cons _ _ _ h
    have hA : p1At (c :: rest) = none := by
      unfold p1At
      have hno : prefixCI "```sql".data (c :: rest) = false := by
        by_contra hx
        rw [Bool.not_eq_false] at hx
        have e : "```sql".data = "```".data ++ "sql".data := by decide
        rw [e] at hx
        have := prefixCI_of_append "```".data "sql".data (c :: rest) hx
        rw [this] at h1
        exact absurd h1 (by simp)
      rw [hno]
      rfl
    simp only [p1Scan, hA, ih h2]

/-- Without any fence ` ``` ` in the text, the second extraction pattern can
match nowhere either. -/
theorem p2Scan_eq_none_of_no_fence (s : List Char)
    (h : hasSub "```".data s = false) : p2Scan s = none := by
  induction s with
  | nil => rfl
  | cons c rest ih =>
    obtain ⟨h1, h2⟩ := hasSub_false_cons _ _ _ h
    have hA : p2At (c :: rest) = none := by
      unfold p2At
      rw [h1]
      rfl
    simp only [p2Scan, hA, ih h2]

/-- The first `';'` of `u ++ [';']` is at its end when `u` has none. -/
theorem findSemi_append_semi (u : List Char) (h : ';' ∉ u) :
    findSemi (u ++ [';']) = some u.length := by
  induction u with
  | nil => rfl
  | cons c cs ih =>
    have hc : (c == ';') = false := by
      simp only [beq_eq_false_iff_ne, ne_eq]
      intro hcc
      exact h (by rw [hcc]; exact List.mem_cons_self _ _)
    simp [findSemi, hc, ih (fun hm => h (List.mem_cons_of_mem _ hm))]

/-- A case-insensitive prefix is no longer than the text. -/
theorem prefixCI_length_le (p s : List Char) (h : prefixCI p s = true) :
    p.length ≤ s.length := by
  induction p generalizing s with
  | nil => simp
  | cons a p ih =>
    cases s with
    | nil => simp [prefixCI] at h
    | cons c cs =>
      simp only [prefixCI, Bool.and_eq_true] at h
      simpa [List.length_cons] using Nat.succ_le_succ (ih cs h.2)

/-- A case-insensitive prefix match survives extending the text. -/
theorem prefixCI_append_right (p b l : List Char) (h : prefixCI p b = true) :
    prefixCI p (b ++ l) = true := by
  induction p generalizing b with
  | nil => rfl
  | cons a p ih =>
    cases b with
    | nil => simp [prefixCI] at h
    | cons c cs =>
      simp only [List.cons_append, prefixCI, Bool.and_eq_true] at h ⊢
      exact ⟨h.1, ih cs h.2⟩

/-- `str.strip()` is the identity on text with non-blank first and last
characters. -/
theorem pyStrip_eq_self_of_ends (c d : Char) (mid : List Char)
    (hc : isPyWs c = false) (hd : isPyWs d = false) :
    pyStrip (c :: (mid ++ [d])) = c :: (mid ++ [d]) := by
  unfold pyStrip
  have h1 : (c :: (mid ++ [d])).dropWhile isPyWs = c :: (mid ++ [d]) := by
    rw [List.dropWhile_cons, hc]
    rfl
  rw [h1]
  have h2 : (c :: (mid ++ [d])).reverse = d :: (mid.reverse ++ [c]) := by
    simp
  rw [h2]
  have h3 : (d :: (mid.reverse ++ [c])).dropWhile isPyWs = d :: (mid.reverse ++ [c]) := by
    rw [List.dropWhile_cons, hd]
    rfl
  rw [h3, ← h2, List.reverse_reverse]

/-- A character that case-insensitively matches `'S'` is not whitespace. -/
theorem not_ws_of_lower_s (c : Char) (h : ('S'.toLower == c.toLower) = true) :
    isPyWs c = false := by
  have h3 : c.toLower = 's' := by
    have h4 := beq_iff_eq.mp h
    rw [show 'S'.toLower = 's' from by decide] at h4
    exact h4.symm
  by_contra hw
  rw [Bool.not_eq_false] at hw
  simp only [isPyWs, Bool.or_eq_true, beq_iff_eq] at hw
  rcases hw with ((((rfl | rfl) | rfl) | rfl) | rfl) | rfl <;> exact absurd h3 (by decide)

/-- Claim C8 (amended): extraction is idempotent on extracted SQL that is a
self-contained `SELECT … ;` statement — when the extracted `s` starts with
`SELECT` (case-insensitively), contains no ` ``` ` fence, and its only `';'`
is its final character, re-running `extract_sql_from_response` on `s` returns
`s` unchanged.  Without these side conditions idempotence fails: fenced SQL
with no terminating semicolon extracts to text from which a second extraction
returns `None` (see the counterexample). -/
theorem extract_sql_idempotent_on_terminated_select (t s : String) (b : List Char)
    (hts : extract_sql_from_response t = some s)
    (hdata : s.data = b ++ [';'])
    (hsel : prefixCI "SELECT".data b = true)
    (hsemi : ';' ∉ b)
    (hfence : hasSub "```".data s.data = false) :
    extract_sql_from_response s = some s := by
  have hb6 : 6 ≤ b.length := by
    simpa using prefixCI_length_le "SELECT".data b hsel
  obtain ⟨c, b', rfl⟩ : ∃ c b', b = c :: b' := by
    cases b with
    | nil => simp at hb6
    | cons c b' => exact ⟨c, b', rfl⟩
  rw [hdata] at hfence
  have hdrop : ((c :: b') ++ [';']).drop 6 = (c :: b').drop 6 ++ [';'] :=
    List.drop_append_of_le_length hb6
  have hsemi' : ';' ∉ (c :: b').drop 6 := fun hm => hsemi (List.mem_of_mem_drop hm)
  have hfind : findSemi (((c :: b') ++ [';']).drop 6) = some ((c :: b').drop 6).length := by
    rw [hdrop]
    exact findSemi_append_semi _ hsemi'
  have hlen : 6 + (((c :: b').drop 6).length) + 1 = ((c :: b') ++ [';']).length := by
    simp only [List.length_drop, List.length_append, List.length_cons, List.length_nil]
      at hb6 ⊢
    omega
  have hAt : p3At ((c :: b') ++ [';']) = some ((c :: b') ++ [';']) := by
    unfold p3At
    rw [show prefixCI "SELECT".data ((c :: b') ++ [';']) = true from
      prefixCI_append_right _ _ _ hsel]
    rw [hfind]
    simp only [Option.map_some']
    rw [hlen, List.take_length]
    simp
  have hscan : p3Scan ((c :: b') ++ [';']) = some ((c :: b') ++ [';']) := by
    rw [List.cons_append]
    simp only [p3Scan]
    rw [← List.cons_append, hAt]
  have hcw : isPyWs c = false := by
    have e : "SELECT".data = 'S' :: "ELECT".data := by decide
    rw [e] at hsel
    simp only [prefixCI, Bool.and_eq_true] at hsel
    exact not_ws_of_lower_s c hsel.1
  have hstrip : pyStrip ((c :: b') ++ [';']) = (c :: b') ++ [';'] := by
    rw [List.cons_append]
    exact pyStrip_eq_self_of_ends c ';' b' hcw (by decide)
  unfold extract_sql_from_response
  rw [hdata, p1Scan_eq_none_of_no_fence _ hfence, p2Scan_eq_none_of_no_fence _ hfence, hscan]
  show some (String.mk (pyStrip (c :: b' ++ [';']))) = some s
  rw [hstrip, ← hdata]

/-- Claim C8, counterexample to the claim as stated: from a fenced SQL block
without a terminating semicolon, extraction returns the inner SQL text, but
re-extracting from that text returns `None` — not the text itself. -/
theorem extract_sql_not_idempotent_counterexample :
    extract_sql_from_response "```sql\nSELECT a FROM t\n```" = some "SELECT a FROM t" ∧
    extract_sql_from_response "SELECT a FROM t" = none ∧
    (none : Option String) ≠ some "SELECT a FROM t" := by
  refine ⟨by decide, by decide, by decide⟩

/-- Claim C8, witness for the amended theorem at a concrete input. -/
theorem extract_sql_idempotent_on_terminated_select_witness :
    extract_sql_from_response "SELECT a FROM t;" = some "SELECT a FROM t;" :=
  extract_sql_idempotent_on_terminated_select "```sql\nSELECT a FROM t;\n```"
    "SELECT a FROM t;" "SELECT a FROM t".data
    (by decide) (by decide) (by decide) (by decide) (by decide)
